import Mathlib

/-!
Verification of `hoverbird/stable-diffusion`: a shallow embedding of
the ControlNet image-processor invocations
(`invokeai/app/invocations/controlnet_image_processors.py`) and of the
painting CRUD service (`ldm/bitterServer/paintingMuse/schema.py`,
`models.py`), together with theorems settling the specification's
claims about them.

Python floats are modelled by exact rationals (`ℚ`); numpy `uint8`
values by `Nat`; Python exceptions by `Except String`.
-/

namespace StableDiffusion

/-! ## ControlNet data model
From `invokeai/app/invocations/controlnet_image_processors.py`. -/

/-- `CONTROLNET_MODE_VALUES = Literal["balanced", "more_prompt", "more_control", "unbalanced"]` -/
inductive ControlMode where
  | balanced
  | more_prompt
  | more_control
  | unbalanced
deriving DecidableEq, Repr

/-- `CONTROLNET_RESIZE_VALUES = Literal["just_resize", "crop_resize", "fill_resize", "just_resize_simple"]` -/
inductive ResizeMode where
  | just_resize
  | crop_resize
  | fill_resize
  | just_resize_simple
deriving DecidableEq, Repr

/-- `ImageField` from `primitives.py` (outside `src/`): carries the stored
image's name. Only the name matters here. -/
structure ImageField where
  image_name : String
deriving DecidableEq, Repr

/-- `ControlNetModelField`: name of the ControlNet model plus its base-model
tag. `BaseModelType` is an enumeration defined outside `src/`; we model it by
its string tag. -/
structure ControlNetModelField where
  model_name : String
  base_model : String
deriving DecidableEq, Repr

/-- `control_weight: Union[float, List[float]]` -/
inductive ControlWeight where
  | single (w : ℚ)
  | list (ws : List ℚ)
deriving DecidableEq, Repr

/-- The range test of `ControlField.validate_control_weight`:
`i < -1 or i > 2` for one float. -/
def weightOutOfRange (i : ℚ) : Bool :=
  decide (i < -1) || decide (i > 2)

/-- `ControlField.validate_control_weight`: a `@validator("control_weight")`
that raises `ValueError` when the weight (or any list element) is outside
`[-1, 2]`, and returns the value unchanged otherwise. -/
def validate_control_weight (v : ControlWeight) : Except String ControlWeight :=
  match v with
  | .list ws =>
      if ws.any weightOutOfRange then
        .error "Control weights must be within -1 to 2 range"
      else .ok v
  | .single w =>
      if weightOutOfRange w then
        .error "Control weights must be within -1 to 2 range"
      else .ok v

/-- `ControlField` (pydantic model). -/
structure ControlField where
  image : ImageField
  control_model : ControlNetModelField
  control_weight : ControlWeight
  begin_step_percent : ℚ
  end_step_percent : ℚ
  control_mode : ControlMode
  resize_mode : ResizeMode
deriving DecidableEq, Repr

/-- Constructing a `ControlField`: pydantic enforces the declared field
constraints `begin_step_percent : ge=0, le=1`, `end_step_percent : ge=0, le=1`
and runs `validate_control_weight`; construction fails iff any of them fails. -/
def ControlField.construct (image : ImageField) (control_model : ControlNetModelField)
    (control_weight : ControlWeight) (begin_step_percent end_step_percent : ℚ)
    (control_mode : ControlMode) (resize_mode : ResizeMode) :
    Except String ControlField :=
  match validate_control_weight control_weight with
  | .error e => .error e
  | .ok w =>
    if ¬ (0 ≤ begin_step_percent ∧ begin_step_percent ≤ 1) then
      .error "begin_step_percent: ensure this value is in range 0..1"
    else if ¬ (0 ≤ end_step_percent ∧ end_step_percent ≤ 1) then
      .error "end_step_percent: ensure this value is in range 0..1"
    else
      .ok { image := image, control_model := control_model, control_weight := w,
            begin_step_percent := begin_step_percent,
            end_step_percent := end_step_percent,
            control_mode := control_mode, resize_mode := resize_mode }

/-- `ControlNetInvocation` (input fields only; `type` and `id` bookkeeping
omitted). Its `begin_step_percent` field is declared with bounds
`ge=-1, le=2`, unlike `ControlField`. -/
structure ControlNetInvocation where
  image : ImageField
  control_model : ControlNetModelField
  control_weight : ControlWeight
  begin_step_percent : ℚ
  end_step_percent : ℚ
  control_mode : ControlMode
  resize_mode : ResizeMode
deriving DecidableEq, Repr

/-- Constructing a `ControlNetInvocation`: pydantic enforces the declared
field bounds `begin_step_percent : ge=-1, le=2` and
`end_step_percent : ge=0, le=1`; `control_weight` has no validator on this
class. -/
def ControlNetInvocation.construct (image : ImageField)
    (control_model : ControlNetModelField) (control_weight : ControlWeight)
    (begin_step_percent end_step_percent : ℚ)
    (control_mode : ControlMode) (resize_mode : ResizeMode) :
    Except String ControlNetInvocation :=
  if ¬ (-1 ≤ begin_step_percent ∧ begin_step_percent ≤ 2) then
    .error "begin_step_percent: ensure this value is in range -1..2"
  else if ¬ (0 ≤ end_step_percent ∧ end_step_percent ≤ 1) then
    .error "end_step_percent: ensure this value is in range 0..1"
  else
    .ok { image := image, control_model := control_model,
          control_weight := control_weight,
          begin_step_percent := begin_step_percent,
          end_step_percent := end_step_percent,
          control_mode := control_mode, resize_mode := resize_mode }

/-- `ControlNetInvocation.invoke`: builds a `ControlField` from the
invocation's own field values (pydantic re-validates at that construction)
and wraps it in a `ControlOutput`. -/
def ControlNetInvocation.invoke (self : ControlNetInvocation) :
    Except String ControlField :=
  ControlField.construct self.image self.control_model self.control_weight
    self.begin_step_percent self.end_step_percent self.control_mode self.resize_mode

/-- A control weight is in range when the scalar (resp. every list element)
lies in `[-1, 2]`. -/
def ControlWeight.inRange : ControlWeight → Prop
  | .single w => -1 ≤ w ∧ w ≤ 2
  | .list ws => ∀ i ∈ ws, -1 ≤ i ∧ i ≤ 2

instance : DecidablePred ControlWeight.inRange := fun v =>
  match v with
  | .single _ => instDecidableAnd
  | .list _ => List.decidableBAll _ _

/-! ## Numpy images and the tile resampler
From `TileResamplerProcessorInvocation` in
`invokeai/app/invocations/controlnet_image_processors.py`. -/

/-- A numpy `uint8` array of shape `(height, width, channels)` (`HWC`
layout). `data y x c` is the value at row `y`, column `x`, channel `c`;
indices and values are `Nat`s (values are conceptually `uint8`). A 2-d
grayscale array is represented with `channels = 1`. -/
structure NpImage where
  height : Nat
  width : Nat
  channels : Nat
  data : Nat → Nat → Nat → Nat

/-- One pixel of `controlnet_aux.util.HWC3`'s 4-channel branch:
`y = color * alpha + 255.0 * (1.0 - alpha)` with `alpha = a / 255`, then
`clip(0, 255)` and `astype(uint8)` (truncation). Computed exactly over the
rationals: `(c * a + 255 * (255 - a)) / 255` floored (`Nat` division) and
clipped at 255. -/
def alphaBlendOverWhite (c a : Nat) : Nat :=
  min 255 ((c * a + 255 * (255 - a)) / 255)

/-- `controlnet_aux.util.HWC3` (external library helper called by
`tile_resample`): returns 3-channel input unchanged, replicates a 1-channel
(grayscale) input across 3 channels, and alpha-composites a 4-channel (RGBA)
input over white. Inputs with other channel counts are rejected by an
`assert` in the library; the model returns them unchanged (the repository
never produces them). -/
def HWC3 (x : NpImage) : NpImage :=
  if x.channels = 3 then x
  else if x.channels = 1 then
    { x with channels := 3, data := fun y xx _ => x.data y xx 0 }
  else if x.channels = 4 then
    { x with channels := 3,
             data := fun y xx c => alphaBlendOverWhite (x.data y xx c) (x.data y xx 3) }
  else x

/-- Models the external `cv2.resize(img, (w, h), interpolation=cv2.INTER_AREA)`:
an image of the requested width `w` and height `h`. The pixel content is the
library's area interpolation, which is external to this repository; it is
abstracted here by deterministic coordinate subsampling (no claim concerns
the interpolated pixel values). -/
def cv2_resize (img : NpImage) (w h : Nat) : NpImage :=
  { height := h, width := w, channels := img.channels,
    data := fun y x c => img.data (y * img.height / h) (x * img.width / w) c }

/-- Python's `int()` applied to a nonnegative float: truncation toward zero,
i.e. the floor, clamped into `Nat`. -/
def pyInt (q : ℚ) : Nat := (⌊q⌋).toNat

/-- `TileResamplerProcessorInvocation.tile_resample` (the `res` parameter is
never used by the source):

```
np_img = HWC3(np_img)
if down_sampling_rate < 1.1:
    return np_img
H, W, C = np_img.shape
H = int(float(H) / float(down_sampling_rate))
W = int(float(W) / float(down_sampling_rate))
np_img = cv2.resize(np_img, (W, H), interpolation=cv2.INTER_AREA)
return np_img
``` -/
def tile_resample (np_img : NpImage) (down_sampling_rate : ℚ) : NpImage :=
  let np_img := HWC3 np_img
  if down_sampling_rate < 11/10 then np_img
  else
    let H := pyInt ((np_img.height : ℚ) / down_sampling_rate)
    let W := pyInt ((np_img.width : ℚ) / down_sampling_rate)
    cv2_resize np_img W H

theorem HWC3_height (x : NpImage) : (HWC3 x).height = x.height := by
  unfold HWC3; split <;> [rfl; (split <;> [rfl; (split <;> rfl)])]

theorem HWC3_width (x : NpImage) : (HWC3 x).width = x.width := by
  unfold HWC3; split <;> [rfl; (split <;> [rfl; (split <;> rfl)])]

theorem HWC3_of_three (x : NpImage) (h : x.channels = 3) : HWC3 x = x := by
  unfold HWC3; rw [if_pos h]

theorem weightOutOfRange_eq_false (i : ℚ) :
    weightOutOfRange i = false ↔ (-1 ≤ i ∧ i ≤ 2) := by
  simp [weightOutOfRange, not_lt, and_comm]

theorem validate_control_weight_ok (w : ControlWeight) (h : w.inRange) :
    validate_control_weight w = .ok w := by
  cases w with
  | single q =>
    simp only [ControlWeight.inRange] at h
    simp [validate_control_weight, (weightOutOfRange_eq_false q).mpr h]
  | list ws =>
    simp only [ControlWeight.inRange] at h
    have : ws.any weightOutOfRange = false :=
      List.any_eq_false.mpr fun i hi => by
        simp [(weightOutOfRange_eq_false i).mpr (h i hi)]
    simp [validate_control_weight, this]

theorem validate_control_weight_error (w : ControlWeight) (h : ¬ w.inRange) :
    validate_control_weight w = .error "Control weights must be within -1 to 2 range" := by
  cases w with
  | single q =>
    simp only [ControlWeight.inRange] at h
    have : weightOutOfRange q = true := by
      cases hb : weightOutOfRange q with
      | true => rfl
      | false => exact absurd ((weightOutOfRange_eq_false q).mp hb) h
    simp [validate_control_weight, this]
  | list ws =>
    simp only [ControlWeight.inRange] at h
    have hany : ws.any weightOutOfRange = true := by
      cases hb : ws.any weightOutOfRange with
      | true => rfl
      | false =>
        refine absurd (fun i hi => (weightOutOfRange_eq_false i).mp ?_) h
        have := List.any_eq_false.mp hb i hi
        simpa using this
    simp [validate_control_weight, hany]

/-- C1: constructing a `ControlField` with a control weight outside `[-1, 2]`
(for a list: any element outside the range) raises a validation error, and
with the weight (resp. every element) within `[-1, 2]` succeeds with the
weight stored unchanged (the other fields being valid). -/
theorem controlField_weight_validation
    (img : ImageField) (cm : ControlNetModelField) (w : ControlWeight)
    (b e : ℚ) (mode : ControlMode) (rm : ResizeMode)
    (hb : 0 ≤ b ∧ b ≤ 1) (he : 0 ≤ e ∧ e ≤ 1) :
    (¬ w.inRange →
      ∃ msg, ControlField.construct img cm w b e mode rm = .error msg) ∧
    (w.inRange →
      ∃ cf, ControlField.construct img cm w b e mode rm = .ok cf ∧
        cf.control_weight = w) := by
  constructor
  · intro h
    refine ⟨"Control weights must be within -1 to 2 range", ?_⟩
    simp [ControlField.construct, validate_control_weight_error w h]
  · intro h
    refine ⟨⟨img, cm, w, b, e, mode, rm⟩, ?_, rfl⟩
    simp [ControlField.construct, validate_control_weight_ok w h,
      hb.1, hb.2, he.1, he.2]

/-- C1 witness: at an out-of-range weight `3` and an in-range list weight. -/
theorem controlField_weight_validation_witness :
    ((¬ (ControlWeight.single 3).inRange →
        ∃ msg, ControlField.construct ⟨"img"⟩ ⟨"canny", "sd-1"⟩ (.single 3) 0 1
          .balanced .just_resize = .error msg) ∧
     ((ControlWeight.single 3).inRange →
        ∃ cf, ControlField.construct ⟨"img"⟩ ⟨"canny", "sd-1"⟩ (.single 3) 0 1
          .balanced .just_resize = .ok cf ∧ cf.control_weight = .single 3)) ∧
    ((¬ (ControlWeight.list [0, 1/2]).inRange →
        ∃ msg, ControlField.construct ⟨"img"⟩ ⟨"canny", "sd-1"⟩ (.list [0, 1/2]) 0 1
          .balanced .just_resize = .error msg) ∧
     ((ControlWeight.list [0, 1/2]).inRange →
        ∃ cf, ControlField.construct ⟨"img"⟩ ⟨"canny", "sd-1"⟩ (.list [0, 1/2]) 0 1
          .balanced .just_resize = .ok cf ∧ cf.control_weight = .list [0, 1/2])) :=
  ⟨controlField_weight_validation _ _ _ _ _ _ _ (by norm_num) (by norm_num),
   controlField_weight_validation _ _ _ _ _ _ _ (by norm_num) (by norm_num)⟩

/-- C2: for every input image and accepted down-sampling rate `r ∈ [1, 8]`:
if `r < 1.1` the result keeps the input's height and width; if `r ≥ 1.1` the
result has height `int(H / r)` and width `int(W / r)` (integer truncation). -/
theorem tile_resample_dimensions (img : NpImage) (r : ℚ)
    (_h1 : 1 ≤ r) (_h8 : r ≤ 8) :
    (r < 11/10 →
      (tile_resample img r).height = img.height ∧
      (tile_resample img r).width = img.width) ∧
    (11/10 ≤ r →
      (tile_resample img r).height = pyInt ((img.height : ℚ) / r) ∧
      (tile_resample img r).width = pyInt ((img.width : ℚ) / r)) := by
  constructor
  · intro hlt
    simp [tile_resample, if_pos hlt, HWC3_height, HWC3_width]
  · intro hge
    have hnl : ¬ r < 11/10 := not_lt.mpr hge
    simp [tile_resample, if_neg hnl, cv2_resize, HWC3_height, HWC3_width]

/-- C2 witness: a 10×7 image at rates `1` and `4`. -/
theorem tile_resample_dimensions_witness :
    (((1 : ℚ) < 11/10 →
       (tile_resample ⟨10, 7, 3, fun _ _ _ => 0⟩ 1).height = 10 ∧
       (tile_resample ⟨10, 7, 3, fun _ _ _ => 0⟩ 1).width = 7) ∧
     ((11/10 : ℚ) ≤ 1 →
       (tile_resample ⟨10, 7, 3, fun _ _ _ => 0⟩ 1).height = pyInt ((10 : ℚ) / 1) ∧
       (tile_resample ⟨10, 7, 3, fun _ _ _ => 0⟩ 1).width = pyInt ((7 : ℚ) / 1))) ∧
    (((4 : ℚ) < 11/10 →
       (tile_resample ⟨10, 7, 3, fun _ _ _ => 0⟩ 4).height = 10 ∧
       (tile_resample ⟨10, 7, 3, fun _ _ _ => 0⟩ 4).width = 7) ∧
     ((11/10 : ℚ) ≤ 4 →
       (tile_resample ⟨10, 7, 3, fun _ _ _ => 0⟩ 4).height = pyInt ((10 : ℚ) / 4) ∧
       (tile_resample ⟨10, 7, 3, fun _ _ _ => 0⟩ 4).width = pyInt ((7 : ℚ) / 4))) :=
  ⟨tile_resample_dimensions _ 1 (by norm_num) (by norm_num),
   tile_resample_dimensions _ 4 (by norm_num) (by norm_num)⟩

/-- A 1×1 single-channel (grayscale) numpy image with value 7. -/
def grayPixel : NpImage := { height := 1, width := 1, channels := 1, data := fun _ _ _ => 7 }

/-- C3 counterexample: at the grayscale image `grayPixel` and rate `1 < 1.1`,
`tile_resample` does not return the input unchanged: `HWC3` first converts it
to 3 channels, so the result differs from the input in its channel count. -/
theorem tile_resample_identity_counterexample :
    tile_resample grayPixel 1 ≠ grayPixel := by
  intro h
  have hc := congrArg NpImage.channels h
  norm_num [tile_resample, HWC3, grayPixel] at hc

/-- C3 (amended): for every input image already in 3-channel (RGB) layout and
every rate `r < 1.1`, `tile_resample` returns the input unchanged, pixel for
pixel and channel for channel; inputs with 1 or 4 channels are first
normalized to 3 channels by `HWC3`. -/
theorem tile_resample_identity_rgb (img : NpImage) (h3 : img.channels = 3)
    (r : ℚ) (hr : r < 11/10) : tile_resample img r = img := by
  simp [tile_resample, HWC3_of_three img h3, if_pos hr]

/-- C3 witness: a concrete 3-channel image at rate `1`. -/
theorem tile_resample_identity_rgb_witness :
    tile_resample ⟨2, 2, 3, fun y x c => y + x + c⟩ 1 = ⟨2, 2, 3, fun y x c => y + x + c⟩ :=
  tile_resample_identity_rgb _ rfl 1 (by norm_num)

/-- C4: `ControlField` does reject `begin_step_percent` outside `[0, 1]`,
but `ControlNetInvocation` declares `begin_step_percent` with bounds
`ge=-1, le=2`: at `begin_step_percent = -1/2` (outside `[0, 1]`) the
invocation is accepted at construction — contradicting the claim — while its
`invoke`, which feeds the same value into a `ControlField`, fails its
re-validation. -/
theorem controlNetInvocation_begin_bounds_bug :
    (∃ inv, ControlNetInvocation.construct ⟨"img"⟩ ⟨"canny", "sd-1"⟩ (.single 1)
        (-1/2) 1 .balanced .just_resize = .ok inv ∧
      ∃ msg, inv.invoke = .error msg) ∧
    (∃ msg, ControlField.construct ⟨"img"⟩ ⟨"canny", "sd-1"⟩ (.single 1)
        (-1/2) 1 .balanced .just_resize = .error msg) := by
  refine ⟨⟨⟨⟨"img"⟩, ⟨"canny", "sd-1"⟩, .single 1, -1/2, 1, .balanced, .just_resize⟩,
    ?_, "begin_step_percent: ensure this value is in range 0..1", ?_⟩,
    "begin_step_percent: ensure this value is in range 0..1", ?_⟩
  · norm_num [ControlNetInvocation.construct]
  · norm_num [ControlNetInvocation.invoke, ControlField.construct,
      validate_control_weight, weightOutOfRange]
  · norm_num [ControlField.construct, validate_control_weight, weightOutOfRange]

/-! ## SAM segmentation rendering
From `SamDetectorReproducibleColors` in
`invokeai/app/invocations/controlnet_image_processors.py`. -/

/-- An RGB color triple (`uint8` components as `Nat`s). -/
abbrev RGB := Nat × Nat × Nat

/-- An `h × w` RGB image as produced by `show_anns`. -/
abbrev SegImage (h w : Nat) := Fin h → Fin w → RGB

/-- One SAM annotation: its `"area"` (a pixel count) and its boolean
`"segmentation"` mask. The code takes the output canvas shape from the first
annotation's mask and pastes every layer at `(0, 0)`; masks are modelled at
one common canvas shape `h × w`. -/
structure SamAnn (h w : Nat) where
  area : Nat
  segmentation : Fin h → Fin w → Bool

/-- `palette[i % len(palette)]` — the color assigned to the annotation of
rank `i` in the area-sorted order. -/
def paletteColor (palette : List RGB) (i : Nat) : RGB :=
  palette.getD (i % palette.length) (0, 0, 0)

/-- One iteration of the paint loop of `show_anns`: paste a full-canvas layer
of `palette[i % len(palette)]` onto the running image through the mask of the
annotation of rank `i` (`Image.paste` with mask `m * 255`: the pasted color
where the mask is set, the previous pixel elsewhere). -/
def paintStep (palette : List RGB) {h w : Nat} (img : SegImage h w)
    (ia : Nat × SamAnn h w) : SegImage h w :=
  fun y x => if ia.2.segmentation y x then paletteColor palette ia.1 else img y x

/-- `SamDetectorReproducibleColors.show_anns`: on an empty annotation list
returns `None`; otherwise sorts the annotations by descending area (Python's
stable `sorted` with `reverse=True`), starts from an all-black canvas, and
pastes the rank-`i` annotation's color layer through its mask, in rank order.
`palette` models the external `controlnet_aux.util.ade_palette()` constant (a
fixed non-empty list of 150 RGB triples defined outside this repository),
passed explicitly. -/
def show_anns (palette : List RGB) {h w : Nat} (anns : List (SamAnn h w)) :
    Option (SegImage h w) :=
  if anns.length = 0 then none
  else
    some (((anns.mergeSort (fun a b => b.area ≤ a.area)).enum).foldl
      (paintStep palette) (fun _ _ => (0, 0, 0)))

/-- One iteration of the fold computing the rank of the last annotation
covering a pixel. -/
def lastStep {h w : Nat} (y : Fin h) (x : Fin w) (o : Option Nat)
    (ia : Nat × SamAnn h w) : Option Nat :=
  if ia.2.segmentation y x then some ia.1 else o

/-- The rank (0-indexed position) of the last annotation in `anns` whose mask
covers pixel `(y, x)`, if any. -/
def lastCoveringRank {h w : Nat} (anns : List (SamAnn h w)) (y : Fin h)
    (x : Fin w) : Option Nat :=
  anns.enum.foldl (lastStep y x) none

theorem lastStep_foldl_init {h w : Nat} (y : Fin h) (x : Fin w)
    (t : List (Nat × SamAnn h w)) (o : Option Nat) :
    t.foldl (lastStep y x) o
      = match t.foldl (lastStep y x) none with
        | some i => some i
        | none => o := by
  induction t generalizing o with
  | nil => rfl
  | cons p t ih =>
    simp only [List.foldl_cons]
    cases hp : p.2.segmentation y x with
    | false =>
      simp only [lastStep, hp, Bool.false_eq_true, if_false]
      exact ih o
    | true =>
      simp only [lastStep, hp, if_true]
      rw [ih (some p.1)]
      cases t.foldl (lastStep y x) none <;> simp

theorem paintStep_foldl_eq (palette : List RGB) {h w : Nat}
    (ps : List (Nat × SamAnn h w)) (acc : SegImage h w) (y : Fin h) (x : Fin w) :
    ps.foldl (paintStep palette) acc y x
      = match ps.foldl (lastStep y x) none with
        | some i => paletteColor palette i
        | none => acc y x := by
  induction ps generalizing acc with
  | nil => rfl
  | cons p t ih =>
    simp only [List.foldl_cons]
    rw [ih (paintStep palette acc p)]
    rw [lastStep_foldl_init y x t (lastStep y x none p)]
    cases t.foldl (lastStep y x) none with
    | some i => rfl
    | none =>
      cases hp : p.2.segmentation y x with
      | true => simp [paintStep, lastStep, hp]
      | false => simp [paintStep, lastStep, hp]

/-- C5: for every non-empty annotation list and (non-empty) palette,
`show_anns` produces an image in which every pixel shows the color
`palette[i mod P]` of the annotation of greatest rank `i` (0-indexed in the
stable descending-by-area order) whose mask covers the pixel, and black where
no annotation covers it. -/
theorem show_anns_coloring (palette : List RGB) {h w : Nat}
    (anns : List (SamAnn h w)) (hne : anns ≠ []) (_hpal : palette ≠ []) :
    ∃ img, show_anns palette anns = some img ∧
      ∀ y x, img y x =
        match lastCoveringRank (anns.mergeSort (fun a b => b.area ≤ a.area)) y x with
        | some i => paletteColor palette i
        | none => (0, 0, 0) := by
  have hlen : ¬ anns.length = 0 := fun h0 => hne (List.length_eq_zero.mp h0)
  unfold show_anns
  rw [if_neg hlen]
  refine ⟨_, rfl, ?_⟩
  intro y x
  exact paintStep_foldl_eq palette _ _ y x

/-- C5 witness: two annotations over a 1×1 canvas; the second-by-area rank
paints last where both cover. -/
theorem show_anns_coloring_witness :
    ∃ img, show_anns [(10, 20, 30), (40, 50, 60), (70, 80, 90)]
        [⟨2, fun _ _ => true⟩, ⟨5, fun _ _ => true⟩] = some img ∧
      ∀ (y : Fin 1) (x : Fin 1), img y x =
        match lastCoveringRank
            (List.mergeSort [⟨2, fun _ _ => true⟩, (⟨5, fun _ _ => true⟩ : SamAnn 1 1)]
              (fun a b => b.area ≤ a.area)) y x with
        | some i => paletteColor [(10, 20, 30), (40, 50, 60), (70, 80, 90)] i
        | none => (0, 0, 0) :=
  show_anns_coloring _ _ (by simp) (by simp)

/-- `show_anns` run with an explicit ambient random-number-generator state
`rng` threaded through (the base class `SamDetector.show_anns` samples
`np.random.random` from that ambient state; the override's body never reads
it). -/
def show_anns_run (_rng : Nat) (palette : List RGB) {h w : Nat}
    (anns : List (SamAnn h w)) : Option (SegImage h w) :=
  show_anns palette anns

/-- C6: `SamDetectorReproducibleColors.show_anns` is deterministic — two runs
on identical input, under arbitrary (and arbitrarily different) ambient
random states, produce identical output. -/
theorem show_anns_deterministic (palette : List RGB) {h w : Nat}
    (anns : List (SamAnn h w)) (rng₁ rng₂ : Nat) :
    show_anns_run rng₁ palette anns = show_anns_run rng₂ palette anns := rfl

/-- C10: on the empty annotation list `show_anns` returns `None` (no image);
on any non-empty list it returns an image. -/
theorem show_anns_empty_none (palette : List RGB) {h w : Nat} :
    show_anns palette ([] : List (SamAnn h w)) = none ∧
    ∀ anns : List (SamAnn h w), anns ≠ [] → (show_anns palette anns).isSome := by
  constructor
  · rfl
  · intro anns hne
    have hlen : ¬ anns.length = 0 := fun h0 => hne (List.length_eq_zero.mp h0)
    unfold show_anns
    rw [if_neg hlen]
    rfl

/-- C10 witness: the empty list over a 1×1 canvas, and a one-annotation
list. -/
theorem show_anns_empty_none_witness :
    (show_anns [(120, 120, 120)] ([] : List (SamAnn 1 1)) = none ∧
      ∀ anns : List (SamAnn 1 1), anns ≠ [] →
        (show_anns [(120, 120, 120)] anns).isSome) ∧
    (show_anns [(120, 120, 120)]
      [(⟨1, fun _ _ => true⟩ : SamAnn 1 1)]).isSome :=
  ⟨show_anns_empty_none _,
   (show_anns_empty_none _).2 [⟨1, fun _ _ => true⟩] (by simp)⟩

/-! ## Painting CRUD service
From `ldm/bitterServer/paintingMuse/models.py` and `schema.py`. -/

/-- The `Painting` Django model. `title` defaults to `"Untitled"`;
`created_at`'s default is `datetime.now(pytz.utc)` evaluated once when the
model class is defined (a fixed timestamp, modelled by the store's
`classLoadTime`); `inspiration_image_url`, `width`, `height`, `prompt` are
nullable; `user` defaults to primary key `1`. Timestamps are modelled as
`Nat`s. -/
structure Painting where
  id : Nat
  title : String
  created_at : Nat
  inspiration_image_url : Option String
  artist_id : String
  user : Nat
  width : Option Int
  height : Option Int
  prompt : Option String
deriving DecidableEq, Repr

/-- The Django ORM's `Painting` table: its rows, the auto-increment primary
key counter, and the fixed class-definition timestamp used as the
`created_at` default. -/
structure PaintingStore where
  rows : List Painting
  nextId : Nat
  classLoadTime : Nat
deriving DecidableEq, Repr

/-- Auto-increment invariant: every stored primary key is below the
counter. -/
def PaintingStore.WF (s : PaintingStore) : Prop :=
  ∀ p ∈ s.rows, p.id < s.nextId

instance (s : PaintingStore) : Decidable s.WF := List.decidableBAll _ _

/-- `Query.resolve_painting`: `Painting.objects.get(pk=painting_id)`, raising
`DoesNotExist` when no row has that primary key. -/
def resolve_painting (s : PaintingStore) (painting_id : Nat) :
    Except String Painting :=
  match s.rows.find? (fun p => p.id == painting_id) with
  | some p => .ok p
  | none => .error "Painting matching query does not exist."

/-- `PaintingInput` as the `CreatePainting` mutation receives it. Graphene
fills `title` with its `default_value="Untitled"` when the client omits it;
the omitted case is modelled as `none` and the default applied in `mutate`.
(The input's unused `id` field is dropped: `mutate` never reads it.) -/
structure PaintingInput where
  title : Option String
  artist_id : String
  prompt : Option String
deriving DecidableEq, Repr

/-- `CreatePainting.mutate`: builds
`Painting(prompt=..., title=..., artist_id=...)` and `save()`s it — an insert
under a fresh auto-increment primary key, the unset model fields taking their
model defaults (`user = 1`, `created_at` the fixed class-definition
timestamp, the rest NULL). Returns the new store and the created record. -/
def CreatePainting.mutate (s : PaintingStore) (painting_data : PaintingInput) :
    PaintingStore × Painting :=
  let p : Painting :=
    { id := s.nextId,
      title := painting_data.title.getD "Untitled",
      created_at := s.classLoadTime,
      inspiration_image_url := none,
      artist_id := painting_data.artist_id,
      user := 1,
      width := none,
      height := none,
      prompt := painting_data.prompt }
  ({ s with rows := s.rows ++ [p], nextId := s.nextId + 1 }, p)

/-- `UpdatePainting.mutate`: `Painting.objects.get(pk=id)` — raising
`DoesNotExist` and leaving the store untouched when the id is absent — then
sets `title` and `save()`s, updating the row with that primary key. -/
def UpdatePainting.mutate (s : PaintingStore) (title : String) (id : Nat) :
    PaintingStore × Except String Painting :=
  match s.rows.find? (fun p => p.id == id) with
  | none => (s, .error "Painting matching query does not exist.")
  | some p =>
    let p2 : Painting := { p with title := title }
    ({ s with rows := s.rows.map (fun q => if q.id == id then p2 else q) },
     .ok p2)

theorem find?_not_found (rows : List Painting) (i : Nat)
    (habs : ∀ p ∈ rows, p.id ≠ i) :
    rows.find? (fun p => p.id == i) = none :=
  List.find?_eq_none.mpr fun p hp => by simpa using habs p hp

/-- C7: creating a painting and then fetching it by the created record's id
returns that record, whose prompt, artist and title match the supplied
values, with the title `"Untitled"` when none was supplied. -/
theorem createPainting_get (s : PaintingStore) (pd : PaintingInput)
    (hwf : s.WF) :
    resolve_painting (CreatePainting.mutate s pd).1
        (CreatePainting.mutate s pd).2.id = .ok (CreatePainting.mutate s pd).2 ∧
    (CreatePainting.mutate s pd).2.prompt = pd.prompt ∧
    (CreatePainting.mutate s pd).2.artist_id = pd.artist_id ∧
    (∀ t, pd.title = some t → (CreatePainting.mutate s pd).2.title = t) ∧
    (pd.title = none → (CreatePainting.mutate s pd).2.title = "Untitled") := by
  have hnone : s.rows.find? (fun p => p.id == s.nextId) = none :=
    find?_not_found s.rows s.nextId fun p hp => Nat.ne_of_lt (hwf p hp)
  refine ⟨?_, rfl, rfl, ?_, ?_⟩
  · simp [CreatePainting.mutate, resolve_painting, List.find?_append, hnone]
  · intro t ht; simp [CreatePainting.mutate, ht]
  · intro ht; simp [CreatePainting.mutate, ht]

/-- C7 witness: creating in an empty store, with the title omitted. -/
theorem createPainting_get_witness :
    resolve_painting (CreatePainting.mutate ⟨[], 1, 100⟩ ⟨none, "artist1", some "a cat"⟩).1
        (CreatePainting.mutate ⟨[], 1, 100⟩ ⟨none, "artist1", some "a cat"⟩).2.id
      = .ok (CreatePainting.mutate ⟨[], 1, 100⟩ ⟨none, "artist1", some "a cat"⟩).2 ∧
    (CreatePainting.mutate ⟨[], 1, 100⟩ ⟨none, "artist1", some "a cat"⟩).2.prompt
      = some "a cat" ∧
    (CreatePainting.mutate ⟨[], 1, 100⟩ ⟨none, "artist1", some "a cat"⟩).2.artist_id
      = "artist1" ∧
    (∀ t, (none : Option String) = some t →
      (CreatePainting.mutate ⟨[], 1, 100⟩ ⟨none, "artist1", some "a cat"⟩).2.title = t) ∧
    ((none : Option String) = none →
      (CreatePainting.mutate ⟨[], 1, 100⟩ ⟨none, "artist1", some "a cat"⟩).2.title
        = "Untitled") :=
  createPainting_get ⟨[], 1, 100⟩ ⟨none, "artist1", some "a cat"⟩ (by decide)

theorem find?_map_replace (i : Nat) (p2 : Painting) (hp2 : (p2.id == i) = true) :
    ∀ (rows : List Painting) (p0 : Painting),
      rows.find? (fun p => p.id == i) = some p0 →
      (rows.map (fun q => if q.id == i then p2 else q)).find? (fun p => p.id == i)
        = some p2 := by
  intro rows
  induction rows with
  | nil => intro p0 h; simp at h
  | cons q t ih =>
    intro p0 h
    cases hq : (q.id == i) with
    | true =>
      simp only [List.map_cons, hq, if_true]
      exact List.find?_cons_of_pos _ hp2
    | false =>
      simp only [List.map_cons, hq, Bool.false_eq_true, if_false]
      rw [List.find?_cons_of_neg _ (by simp [hq])]
      have ht : t.find? (fun p => p.id == i) = some p0 := by
        rwa [List.find?_cons_of_neg _ (by simp [hq])] at h
      exact ih p0 ht

/-- C8: updating an existing painting's title and then fetching it by id
returns a record whose title is the new title and whose every other field
(prompt, artist, inspiration-image URL, width, height, creation timestamp,
user, id) is unchanged from before the update. -/
theorem updatePainting_get (s : PaintingStore) (i : Nat) (newTitle : String)
    (p0 : Painting) (hget : resolve_painting s i = .ok p0) :
    ∃ p1, (UpdatePainting.mutate s newTitle i).2 = .ok p1 ∧
      resolve_painting (UpdatePainting.mutate s newTitle i).1 i = .ok p1 ∧
      p1.title = newTitle ∧
      p1.prompt = p0.prompt ∧
      p1.artist_id = p0.artist_id ∧
      p1.inspiration_image_url = p0.inspiration_image_url ∧
      p1.width = p0.width ∧
      p1.height = p0.height ∧
      p1.created_at = p0.created_at ∧
      p1.user = p0.user ∧
      p1.id = p0.id := by
  have hfind : s.rows.find? (fun p => p.id == i) = some p0 := by
    unfold resolve_painting at hget
    cases hf : s.rows.find? (fun p => p.id == i) with
    | some p =>
      rw [hf] at hget
      simp only [Except.ok.injEq] at hget
      rw [hget]
    | none =>
      rw [hf] at hget
      exact Except.noConfusion hget
  have hp0id : (p0.id == i) = true := by
    have h2 := List.find?_some hfind
    simpa using h2
  refine ⟨{ p0 with title := newTitle }, ?_, ?_, rfl, rfl, rfl, rfl, rfl, rfl, rfl,
    rfl, rfl⟩
  · simp [UpdatePainting.mutate, hfind]
  · have hrepl := find?_map_replace i { p0 with title := newTitle }
      (by simpa using hp0id) s.rows p0 hfind
    simp only [UpdatePainting.mutate, hfind]
    unfold resolve_painting
    rw [hrepl]

/-- C8 witness: a one-row store, retitling painting `1` to `"New"`. -/
theorem updatePainting_get_witness :
    ∃ p1, (UpdatePainting.mutate ⟨[⟨1, "Old", 5, none, "artist1", 1, none, none,
        some "sunset"⟩], 2, 5⟩ "New" 1).2 = .ok p1 ∧
      resolve_painting (UpdatePainting.mutate ⟨[⟨1, "Old", 5, none, "artist1", 1,
          none, none, some "sunset"⟩], 2, 5⟩ "New" 1).1 1 = .ok p1 ∧
      p1.title = "New" ∧
      p1.prompt = some "sunset" ∧
      p1.artist_id = "artist1" ∧
      p1.inspiration_image_url = none ∧
      p1.width = none ∧
      p1.height = none ∧
      p1.created_at = 5 ∧
      p1.user = 1 ∧
      p1.id = 1 :=
  updatePainting_get ⟨[⟨1, "Old", 5, none, "artist1", 1, none, none, some "sunset"⟩],
    2, 5⟩ 1 "New" ⟨1, "Old", 5, none, "artist1", 1, none, none, some "sunset"⟩ rfl

/-- C9: for an id absent from the store, `get` fails with the not-found
error, the update mutation fails with the not-found error, and the failing
update leaves the store unchanged. -/
theorem missing_id_not_found (s : PaintingStore) (i : Nat)
    (habs : ∀ p ∈ s.rows, p.id ≠ i) :
    resolve_painting s i = .error "Painting matching query does not exist." ∧
    ∀ t : String,
      (UpdatePainting.mutate s t i).1 = s ∧
      (UpdatePainting.mutate s t i).2
        = .error "Painting matching query does not exist." := by
  have hnone := find?_not_found s.rows i habs
  refine ⟨?_, fun t => ⟨?_, ?_⟩⟩
  · simp [resolve_painting, hnone]
  · simp [UpdatePainting.mutate, hnone]
  · simp [UpdatePainting.mutate, hnone]

/-- C9 witness: a one-row store and the absent id `42`. -/
theorem missing_id_not_found_witness :
    resolve_painting ⟨[⟨1, "Old", 5, none, "artist1", 1, none, none,
        some "sunset"⟩], 2, 5⟩ 42
      = .error "Painting matching query does not exist." ∧
    ∀ t : String,
      (UpdatePainting.mutate ⟨[⟨1, "Old", 5, none, "artist1", 1, none, none,
          some "sunset"⟩], 2, 5⟩ t 42).1
        = ⟨[⟨1, "Old", 5, none, "artist1", 1, none, none, some "sunset"⟩], 2, 5⟩ ∧
      (UpdatePainting.mutate ⟨[⟨1, "Old", 5, none, "artist1", 1, none, none,
          some "sunset"⟩], 2, 5⟩ t 42).2
        = .error "Painting matching query does not exist." :=
  missing_id_not_found ⟨[⟨1, "Old", 5, none, "artist1", 1, none, none,
    some "sunset"⟩], 2, 5⟩ 42 (by decide)

end StableDiffusion
